import Mathlib

/-!
Verification of the multiwallet master/agent VM-orchestration core.

The Python sources are shallowly embedded: the in-memory agent registry
(src/app/agents.py) becomes explicit state passing over association lists
(Python dicts preserve insertion order, so an association list with unique
keys is a faithful model); `datetime` timestamps become integer seconds;
the subprocess boundary (src/app/multipass.py, src/agent/agent_executor.py)
is parameterized by the behaviour of the spawned process; the communicator
(src/app/communication.py) is embedded up to its first outbound network
request, which is all the gating logic that precedes any I/O.
-/

namespace Batwa

/-- Association-list lookup, mirroring Python `dict.get(k)`. -/
def alGet {α : Type} (l : List (String × α)) (k : String) : Option α :=
  match l with
  | [] => none
  | (k', v) :: rest => if k' = k then some v else alGet rest k

/-- Association-list store, mirroring Python `d[k] = v` on an
insertion-ordered dict: replace the first binding in place, else append. -/
def alSet {α : Type} (l : List (String × α)) (k : String) (v : α) : List (String × α) :=
  match l with
  | [] => [(k, v)]
  | (k', v') :: rest => if k' = k then (k, v) :: rest else (k', v') :: alSet rest k v

/-- Association-list removal, mirroring Python `del d[k]`. -/
def alDel {α : Type} (l : List (String × α)) (k : String) : List (String × α) :=
  match l with
  | [] => []
  | (k', v') :: rest => if k' = k then alDel rest k else (k', v') :: alDel rest k

/-- `AgentInfo` (src/app/models.py lines 39-47); `last_seen` is an optional
timestamp in integer seconds. -/
structure AgentInfo where
  agent_id : String
  hostname : String
  api_url : String
  status : String
  last_seen : Option Int
  tags : List (String × String)
  vm_count : Int
deriving Repr, DecidableEq

/-- `AgentRegisterRequest` (src/app/models.py lines 30-36). -/
structure AgentRegisterRequest where
  agent_id : String
  hostname : String
  api_url : String
  api_key : Option String
  tags : Option (List (String × String))
deriving Repr, DecidableEq

/-- `AgentHeartbeat` (src/app/models.py lines 50-55). -/
structure AgentHeartbeat where
  agent_id : String
  timestamp : Int
  status : String
  vm_count : Int
deriving Repr, DecidableEq

/-- The mutable state of `AgentRegistry` (src/app/agents.py lines 14-20):
`_agents` and `_api_keys`. -/
structure AgentRegistry where
  agents : List (String × AgentInfo)
  api_keys : List (String × String)
deriving Repr, DecidableEq

/-- `_offline_threshold = 60` seconds (src/app/agents.py line 20). -/
def offlineThreshold : Int := 60

/-- Python `s.rstrip('/')`: drop all trailing slash characters. -/
def rstripSlash (s : String) : String :=
  ⟨(s.data.reverse.dropWhile (fun c => c = '/')).reverse⟩

/-- Python truthiness of an `Optional[str]`: `None` and the empty string
are falsy. -/
def strTruthy : Option String → Bool
  | none => false
  | some s => s ≠ ""

/-- `AgentRegistry.register_agent` (src/app/agents.py lines 22-41), with the
registration time `now` passed explicitly in place of `datetime.now()`.
A fresh record is built with status `"online"`, the url right-stripped of
slashes, `vm_count` zero; it replaces any record under the same id.  The
API key is stored only when the request carries a truthy one. -/
def registerAgent (now : Int) (req : AgentRegisterRequest) (s : AgentRegistry) :
    AgentInfo × AgentRegistry :=
  let info : AgentInfo :=
    { agent_id := req.agent_id
      hostname := req.hostname
      api_url := rstripSlash req.api_url
      status := "online"
      last_seen := some now
      tags := req.tags.getD []
      vm_count := 0 }
  let keys :=
    if strTruthy req.api_key then alSet s.api_keys req.agent_id (req.api_key.getD "")
    else s.api_keys
  (info, { agents := alSet s.agents req.agent_id info, api_keys := keys })

/-- `AgentRegistry.unregister_agent` (src/app/agents.py lines 43-51). -/
def unregisterAgent (agent_id : String) (s : AgentRegistry) : Bool × AgentRegistry :=
  match alGet s.agents agent_id with
  | some _ =>
      (true, { agents := alDel s.agents agent_id, api_keys := alDel s.api_keys agent_id })
  | none => (false, s)

/-- `AgentRegistry.get_agent` (src/app/agents.py lines 53-55). -/
def getAgent (s : AgentRegistry) (agent_id : String) : Option AgentInfo :=
  alGet s.agents agent_id

/-- `AgentRegistry.get_agent_api_key` (src/app/agents.py lines 65-67). -/
def getAgentApiKey (s : AgentRegistry) (agent_id : String) : Option String :=
  alGet s.api_keys agent_id

/-- `AgentRegistry.update_heartbeat` (src/app/agents.py lines 69-76):
a no-op when the id is unknown; otherwise overwrite `last_seen`, `status`
and `vm_count` of that record. -/
def updateHeartbeat (hb : AgentHeartbeat) (s : AgentRegistry) : AgentRegistry :=
  match alGet s.agents hb.agent_id with
  | none => s
  | some a =>
      let a' := { a with last_seen := some hb.timestamp, status := hb.status,
                         vm_count := hb.vm_count }
      { s with agents := alSet s.agents hb.agent_id a' }

/-- `AgentRegistry.update_vm_count` (src/app/agents.py lines 78-82). -/
def updateVmCount (agent_id : String) (count : Int) (s : AgentRegistry) : AgentRegistry :=
  match alGet s.agents agent_id with
  | none => s
  | some a =>
      let a' := { a with vm_count := count }
      { s with agents := alSet s.agents agent_id a' }

/-- One agent's step of `AgentRegistry.check_agent_status`
(src/app/agents.py lines 89-99): records with no `last_seen` are skipped;
past the threshold any non-offline status is forced to `"offline"`; within
the threshold only an `"offline"` status is flipped back to `"online"`. -/
def sweepAgent (now : Int) (a : AgentInfo) : AgentInfo :=
  match a.last_seen with
  | none => a
  | some ls =>
      if now - ls > offlineThreshold then
        if a.status ≠ "offline" then { a with status := "offline" } else a
      else
        if a.status = "offline" then { a with status := "online" } else a

/-- `AgentRegistry.check_agent_status` (src/app/agents.py lines 84-99),
with the sweep time `now` passed explicitly in place of `datetime.now()`. -/
def checkAgentStatus (now : Int) (s : AgentRegistry) : AgentRegistry :=
  { s with agents := s.agents.map (fun p => (p.1, sweepAgent now p.2)) }

/-- `RemoteCommandResponse` (src/app/models.py lines 65-71). -/
structure RemoteCommandResponse where
  success : Bool
  stdout : Option String
  stderr : Option String
  return_code : Int
  error : Option String
deriving Repr, DecidableEq

/-- An outbound HTTP request, identified by verb and target URL. -/
structure NetCall where
  verb : String
  url : String
deriving Repr, DecidableEq

/-- The observable first step of a communicator method: either it returns a
response having issued zero outbound network calls (`fail`), or it reaches
the point of issuing its outbound request (`net`). -/
inductive CommStep (ρ : Type) where
  | fail (resp : ρ)
  | net (call : NetCall)
deriving Repr, DecidableEq

/-- `AgentCommunicator._get_headers` (src/app/communication.py lines 33-39):
content type plus, when a truthy API key is stored, an `X-API-Key` header. -/
def getHeaders (s : AgentRegistry) (agent_id : String) : List (String × String) :=
  let base := [("Content-Type", "application/json")]
  match getAgentApiKey s agent_id with
  | some k => if k ≠ "" then base ++ [("X-API-Key", k)] else base
  | none => base

/-- `AgentCommunicator.execute_command` (src/app/communication.py lines
41-91) up to its outbound request: unknown agent and non-online agent both
return failure responses before any network I/O; otherwise the method posts
to `<api_url>/api/execute`. -/
def executeCommandPhase (s : AgentRegistry) (agent_id : String) :
    CommStep RemoteCommandResponse :=
  match getAgent s agent_id with
  | none =>
      .fail { success := false, stdout := none, stderr := none, return_code := -1,
              error := some ("Agent not found: " ++ agent_id) }
  | some a =>
      if a.status ≠ "online" then
        .fail { success := false, stdout := none, stderr := none, return_code := -1,
                error := some ("Agent is offline: " ++ agent_id) }
      else
        .net { verb := "POST", url := a.api_url ++ "/api/execute" }

/-- `AgentCommunicator.get_vm_list` (src/app/communication.py lines
120-146) up to its outbound request: only the not-found check precedes the
GET; the agent's status is not consulted. -/
def getVmListPhase (s : AgentRegistry) (agent_id : String) : CommStep String :=
  match getAgent s agent_id with
  | none => .fail ("Agent not found: " ++ agent_id)
  | some a => .net { verb := "GET", url := a.api_url ++ "/api/vm/list" }

/-- `AgentCommunicator.get_vm_info` (src/app/communication.py lines
148-175) up to its outbound request. -/
def getVmInfoPhase (s : AgentRegistry) (agent_id vm_name : String) : CommStep String :=
  match getAgent s agent_id with
  | none => .fail ("Agent not found: " ++ agent_id)
  | some a => .net { verb := "GET", url := a.api_url ++ "/api/vm/info/" ++ vm_name }

/-- `AgentCommunicator.create_vm` (src/app/communication.py lines 177-223)
up to its outbound request. -/
def createVmPhase (s : AgentRegistry) (agent_id : String) : CommStep String :=
  match getAgent s agent_id with
  | none => .fail ("Agent not found: " ++ agent_id)
  | some a => .net { verb := "POST", url := a.api_url ++ "/api/vm/create" }

/-- `AgentCommunicator.vm_action` (src/app/communication.py lines 225-259)
up to its outbound request. -/
def vmActionPhase (s : AgentRegistry) (agent_id action : String) : CommStep String :=
  match getAgent s agent_id with
  | none => .fail ("Agent not found: " ++ agent_id)
  | some a => .net { verb := "POST", url := a.api_url ++ "/api/vm/" ++ action }

/-- Behaviour of one spawned `multipass` process: how long it runs (integer
seconds), its exit code and its captured output streams. -/
structure ProcBehavior where
  duration : Int
  exitCode : Int
  stdout : String
  stderr : String
deriving Repr, DecidableEq

/-- Environment outcome of attempting to spawn the external tool: either
the binary runs with some behaviour, or it is absent (`FileNotFoundError`). -/
inductive Spawn where
  | runs (b : ProcBehavior)
  | toolMissing
deriving Repr, DecidableEq

/-- `CmdResult`: the dict `{success, output, error}` both command runners
return. -/
structure CmdResult where
  success : Bool
  output : String
  error : String
deriving Repr, DecidableEq

/-- The error text of the `FileNotFoundError` branch shared by both
runners. -/
def toolMissingError : String := "multipass command not found. Is multipass installed?"

/-- `run_multipass_command` (src/app/multipass.py lines 7-24): calls
`subprocess.run` with `check=True` and NO `timeout` argument, so the call
blocks for the process's whole duration and no `TimeoutExpired` can arise;
only `CalledProcessError` and `FileNotFoundError` are handled. -/
def appRunMultipassCommand (e : Spawn) : CmdResult :=
  match e with
  | .toolMissing => { success := false, output := "", error := toolMissingError }
  | .runs b =>
      if b.exitCode ≠ 0 then { success := false, output := b.stdout, error := b.stderr }
      else { success := true, output := b.stdout, error := "" }

/-- The timeout message of the agent-side runner
(src/agent/agent_executor.py line 40). -/
def agentTimeoutError : String := "Command timed out after 5 minutes"

/-- `AgentExecutor.run_multipass_command` (src/agent/agent_executor.py
lines 13-48): same as the master-side runner but `subprocess.run` is given
`timeout=300`, and a `TimeoutExpired` (raised when the process exceeds 300
seconds) is normalized into a distinct timeout failure. -/
def agentRunMultipassCommand (e : Spawn) : CmdResult :=
  match e with
  | .toolMissing => { success := false, output := "", error := toolMissingError }
  | .runs b =>
      if b.duration > 300 then { success := false, output := "", error := agentTimeoutError }
      else if b.exitCode ≠ 0 then { success := false, output := b.stdout, error := b.stderr }
      else { success := true, output := b.stdout, error := "" }

/-- The dict `{success, message}` returned by the VM lifecycle operations. -/
structure VmActionResult where
  success : Bool
  message : String
deriving Repr, DecidableEq

/-- `LocalVMExecutor.delete_vm` (src/app/remote_executor.py lines 122-135),
parameterized by the behaviour `env` of each multipass invocation; returns
the result together with the trace of multipass invocations issued, in
order.  `delete <name>` runs first; `purge` runs only when it succeeded. -/
def localDeleteVm (env : List String → Spawn) (vm_name : String) :
    VmActionResult × List (List String) :=
  let dres := appRunMultipassCommand (env ["delete", vm_name])
  if dres.success then
    let pres := appRunMultipassCommand (env ["purge"])
    ({ success := pres.success,
       message := if pres.success then "VM deleted and purged" else pres.error },
     [["delete", vm_name], ["purge"]])
  else
    ({ success := false, message := dres.error }, [["delete", vm_name]])

/-- The capability set of `VMExecutor` (src/app/remote_executor.py lines
12-55). -/
inductive CapOp where
  | listVms
  | infoVm (vm_name : String)
  | createVm (name : String) (cpus : Int) (memory disk image : String)
  | startVm (vm_name : String)
  | stopVm (vm_name : String)
  | deleteVm (vm_name : String)
deriving Repr, DecidableEq

/-- The two executor variants produced by the factory. -/
inductive ExecutorKind where
  | localExec
  | remoteExec (agent_id : String)
deriving Repr, DecidableEq

/-- `ExecutorFactory.get_executor` (src/app/remote_executor.py lines
232-246): `None` selects `LocalVMExecutor`, any id selects
`RemoteVMExecutor(agent_id, ...)`. -/
def getExecutor : Option String → ExecutorKind
  | none => .localExec
  | some agent_id => .remoteExec agent_id

/-- A call to one of the two backends: the subprocess Command Runner with
an argument list, or the Communicator aimed at a specific agent id and
endpoint path. -/
inductive BackendCall where
  | runner (args : List String)
  | comm (agent_id : String) (endpoint : String)
deriving Repr, DecidableEq

/-- Backend calls issued by each `LocalVMExecutor` operation
(src/app/remote_executor.py lines 58-135): every operation invokes
`run_multipass_command` with the fixed argument grammar; `delete_vm`
contributes its two-step trace. -/
def localOpCalls (env : List String → Spawn) : CapOp → List BackendCall
  | .listVms => [.runner ["list", "--format", "json"]]
  | .infoVm n => [.runner ["info", n, "--format", "json"]]
  | .createVm n c m d i =>
      [.runner ["launch", i, "--name", n, "--cpus", toString c, "--memory", m, "--disk", d]]
  | .startVm n => [.runner ["start", n]]
  | .stopVm n => [.runner ["stop", n]]
  | .deleteVm n => (localDeleteVm env n).2.map .runner

/-- Backend calls issued by each `RemoteVMExecutor` operation
(src/app/remote_executor.py lines 146-208): every operation goes through
the communicator bound to `self.agent_id` (`get_vm_list`, `get_vm_info`,
`create_vm`, or `vm_action` with the start/stop/delete endpoint). -/
def remoteOpCalls (agent_id : String) : CapOp → List BackendCall
  | .listVms => [.comm agent_id "/api/vm/list"]
  | .infoVm n => [.comm agent_id ("/api/vm/info/" ++ n)]
  | .createVm _ _ _ _ _ => [.comm agent_id "/api/vm/create"]
  | .startVm _ => [.comm agent_id "/api/vm/start"]
  | .stopVm _ => [.comm agent_id "/api/vm/stop"]
  | .deleteVm _ => [.comm agent_id "/api/vm/delete"]

/-- Backend calls issued by an executor for one capability operation. -/
def executorCalls (env : List String → Spawn) : ExecutorKind → CapOp → List BackendCall
  | .localExec, op => localOpCalls env op
  | .remoteExec agent_id, op => remoteOpCalls agent_id op

/-- Does the call drive the subprocess Command Runner? -/
def isRunnerCall : BackendCall → Bool
  | .runner _ => true
  | .comm _ _ => false

/-- Does the call drive the Communicator targeting exactly `agent_id`? -/
def targetsAgent (agent_id : String) : BackendCall → Bool
  | .runner _ => false
  | .comm id _ => id = agent_id

/-- JSON values as produced by `json.loads`; numbers are modelled as
integers (the frames at issue carry integer cols/rows). -/
inductive PyJson where
  | null
  | bool (b : Bool)
  | num (n : Int)
  | str (s : String)
  | arr (xs : List PyJson)
  | obj (fields : List (String × PyJson))
deriving Repr

/-- Python `obj.get("type") == "resize"`: true exactly when the looked-up
value is the given string. -/
def isStrEq : Option PyJson → String → Bool
  | some (.str s), t => s = t
  | _, _ => false

/-- Is the field under `k` a JSON number? -/
def isNumField (fields : List (String × PyJson)) (k : String) : Bool :=
  match alGet fields k with
  | some (.num _) => true
  | _ => false

/-- Python `int()` coercion on a JSON value, parameterized by `strToInt`,
the string branch of the builtin.  Python's full numeral-string grammar
(whitespace stripping, PEP 515 underscore grouping, Unicode decimal
digits) is a property of the Python runtime, not of this repository, so
it is kept abstract the same way `json.loads` is: `strToInt s` is the
result of `int(s)`, `none` meaning the call raises.  Numbers pass
through, booleans coerce to 0/1, every other value raises (`none`). -/
def pyIntWith (strToInt : String → Option Int) : PyJson → Option Int
  | .num n => some n
  | .bool b => some (if b then 1 else 0)
  | .str s => strToInt s
  | _ => none

/-- Range accepted by the `struct.pack` format character `H` (unsigned
16-bit): a value outside 0..65535 makes `struct.pack` raise
`struct.error`. -/
def inUShortRange (n : Int) : Bool :=
  0 ≤ n && n ≤ 65535

/-- Effect of one received client frame on the local relay session:
either a terminal-size ioctl on the PTY primary side, or a byte-for-byte
write of the frame to the primary side as keystrokes. -/
inductive RelayAction where
  | resize (rows cols : Int)
  | write (msg : String)
deriving Repr, DecidableEq

/-- Receiver-loop body of `handle_local_terminal` (src/app/websocket.py
lines 188-208), textually identical in `websocket_terminal`
(src/agent/agent_main.py lines 296-318).  `strToInt` is Python's
`int()`-on-string coercion and `parsed` the outcome of `json.loads(msg)`
(`none` = parse failure).  The Python `try` swallows every failure of the
resize attempt — non-object value (`AttributeError`), missing
`cols`/`rows` (`KeyError`), non-convertible values (`int()` raising), and
a converted value outside `struct.pack("HHHH", ...)`'s unsigned-short
range (`struct.error`) — and falls through to
`os.write(master_fd, msg.encode())`; a successful resize applies the
ioctl (modelled as succeeding) and `continue`s without writing. -/
def processFrame (strToInt : String → Option Int) (parsed : Option PyJson)
    (msg : String) : RelayAction :=
  match parsed with
  | some (.obj fields) =>
      if isStrEq (alGet fields "type") "resize" then
        match alGet fields "cols", alGet fields "rows" with
        | some cv, some rv =>
            match pyIntWith strToInt cv, pyIntWith strToInt rv with
            | some c, some r =>
                if inUShortRange r && inUShortRange c then .resize r c
                else .write msg
            | _, _ => .write msg
        | _, _ => .write msg
      else .write msg
  | _ => .write msg

/-- Outcome of the agent's dependency check: pass, or an HTTP error with
status code and detail. -/
inductive AuthResult where
  | allowed
  | rejected (status : Int) (detail : String)
deriving Repr, DecidableEq

/-- `verify_api_key` (src/agent/agent_main.py lines 78-86): with no
configured key every request passes; with a configured key the request
passes exactly when the `X-API-Key` header equals it, else a 403 is
raised. -/
def verifyApiKey (cfgKey : Option String) (xApiKey : Option String) : AuthResult :=
  match cfgKey with
  | none => .allowed
  | some k =>
      match xApiKey with
      | none => .rejected 403 "Invalid or missing API key"
      | some h => if h ≠ k then .rejected 403 "Invalid or missing API key" else .allowed

/-- The empty registry: state of the module-level `agent_registry` at
startup (src/app/agents.py line 130). -/
def emptyRegistry : AgentRegistry := { agents := [], api_keys := [] }

/-- A concrete registration request carrying an API key. -/
def reqA1 : AgentRegisterRequest :=
  { agent_id := "a1", hostname := "host1", api_url := "http://h:8001",
    api_key := some "secret1", tags := none }

/-- Registry holding `a1`, registered at time 0. -/
def regA1 : AgentRegistry := (registerAgent 0 reqA1 emptyRegistry).2

/-- The record `register_agent` builds for `reqA1` at time 0. -/
def a1Info : AgentInfo :=
  { agent_id := "a1", hostname := "host1", api_url := "http://h:8001",
    status := "online", last_seen := some 0, tags := [], vm_count := 0 }

/-- The same record after the sweep has marked it offline. -/
def a1OfflineInfo : AgentInfo := { a1Info with status := "offline" }

/-- Registry where the sweep at time 100 marked `a1` offline
(100 − 0 > 60). -/
def regA1Offline : AgentRegistry := checkAgentStatus 100 regA1

/-- A heartbeat carrying a status outside {online, offline}. -/
def hbError : AgentHeartbeat :=
  { agent_id := "a1", timestamp := 10, status := "error", vm_count := 1 }

/-- A heartbeat from an id nobody registered. -/
def hbUnknown : AgentHeartbeat :=
  { agent_id := "ghost", timestamp := 5, status := "online", vm_count := 0 }

/-- Registry after `a1`'s heartbeat deposited status "error". -/
def regA1Error : AgentRegistry := updateHeartbeat hbError regA1

/-- A second registration request for the same id with new identity fields
and no API key. -/
def reqA1v2 : AgentRegisterRequest :=
  { agent_id := "a1", hostname := "host2", api_url := "http://h2:9000/",
    api_key := none, tags := some [("zone", "b")] }

/-- Invocation environment where `delete vm1` fails with stderr "boom" and
every other invocation succeeds. -/
def envDeleteFails : List String → Spawn := fun args =>
  if args = ["delete", "vm1"] then
    .runs { duration := 1, exitCode := 1, stdout := "", stderr := "boom" }
  else
    .runs { duration := 1, exitCode := 0, stdout := "ok", stderr := "" }

/-- Fields of the object `json.loads` yields for the frame
`\x7b"type": "resize", "cols": 99999, "rows": 24\x7d`: cols and rows are
plain JSON numbers, but cols exceeds 65535. -/
def hugeColsFields : List (String × PyJson) :=
  [("type", .str "resize"), ("cols", .num 99999), ("rows", .num 24)]

/-- The raw text of that frame. -/
def hugeColsMsg : String :=
  "\x7b\"type\": \"resize\", \"cols\": 99999, \"rows\": 24\x7d"

/-- Fields of the canonical resize control object with numeric cols/rows. -/
def numColsFields : List (String × PyJson) :=
  [("type", .str "resize"), ("cols", .num 80), ("rows", .num 24)]

theorem alGet_alSet_self {α : Type} (l : List (String × α)) (k : String) (v : α) :
    alGet (alSet l k v) k = some v := by
  induction l with
  | nil => simp [alSet, alGet]
  | cons p rest ih =>
      obtain ⟨k', v'⟩ := p
      by_cases h : k' = k <;> simp [alSet, alGet, h, ih]

theorem alGet_alSet_ne {α : Type} (l : List (String × α)) (k k' : String) (v : α)
    (h : k' ≠ k) : alGet (alSet l k v) k' = alGet l k' := by
  induction l with
  | nil => simp [alSet, alGet, if_neg (Ne.symm h)]
  | cons p rest ih =>
      obtain ⟨k₀, v₀⟩ := p
      by_cases h₀ : k₀ = k
      · subst h₀
        simp [alSet, alGet, if_neg (Ne.symm h)]
      · by_cases h₁ : k₀ = k' <;> simp [alSet, alGet, h₀, h₁, h, ih]

theorem alGet_alDel_self {α : Type} (l : List (String × α)) (k : String) :
    alGet (alDel l k) k = none := by
  induction l with
  | nil => simp [alDel, alGet]
  | cons p rest ih =>
      obtain ⟨k', v'⟩ := p
      by_cases h : k' = k <;> simp [alDel, alGet, h, ih]

theorem alGet_map_snd {α β : Type} (f : α → β) (l : List (String × α)) (k : String) :
    alGet (l.map (fun p => (p.1, f p.2))) k = (alGet l k).map f := by
  induction l with
  | nil => simp [alGet]
  | cons p rest ih =>
      obtain ⟨k', v'⟩ := p
      by_cases h : k' = k <;> simp [alGet, h, ih]

/-- Claim C3: `LocalVMExecutor.delete_vm` reports success iff both the
`delete <name>` invocation and the subsequent `purge` invocation succeed;
when the delete step fails, `purge` is never invoked (the trace holds only
the delete invocation) and the result's message is the delete step's error
text verbatim. -/
theorem localDeleteVmTwoStep (env : List String → Spawn) (vm_name : String) :
    ((localDeleteVm env vm_name).1.success = true ↔
      ((appRunMultipassCommand (env ["delete", vm_name])).success = true ∧
       (appRunMultipassCommand (env ["purge"])).success = true)) ∧
    ((appRunMultipassCommand (env ["delete", vm_name])).success = false →
      (localDeleteVm env vm_name).2 = [["delete", vm_name]] ∧
      (localDeleteVm env vm_name).1.message =
        (appRunMultipassCommand (env ["delete", vm_name])).error) := by
  constructor
  · cases hd : (appRunMultipassCommand (env ["delete", vm_name])).success <;>
      simp [localDeleteVm, hd]
  · intro hd
    simp [localDeleteVm, hd]

/-- Witness for `localDeleteVmTwoStep`: in `envDeleteFails`, deleting
`vm1` fails, so only the delete invocation is traced and its stderr is the
message. -/
theorem localDeleteVmTwoStepWitness :
    (localDeleteVm envDeleteFails "vm1").2 = [["delete", "vm1"]] ∧
    (localDeleteVm envDeleteFails "vm1").1.message =
      (appRunMultipassCommand (envDeleteFails ["delete", "vm1"])).error :=
  (localDeleteVmTwoStep envDeleteFails "vm1").2 (by decide)

/-- Claim C4 counterexample: the master-side Command Runner
(src/app/multipass.py) passes no `timeout` to `subprocess.run`; a process
running 400 seconds — beyond the claimed 5-minute ceiling — is simply
waited for and its successful exit is reported as `success = true`, not a
timeout-specific failure. -/
theorem appRunnerIgnoresCeiling :
    appRunMultipassCommand
        (.runs { duration := 400, exitCode := 0, stdout := "done", stderr := "" }) =
      { success := true, output := "done", error := "" } ∧
    (400 : Int) > 300 := by
  decide

/-- Claim C4 (amended): only the agent-side Command Runner
(src/agent/agent_executor.py) enforces the 5-minute ceiling: an invocation
exceeding 300 seconds yields `success = false` with the distinct timeout
message (different from the tool-missing error); the master-side
`run_multipass_command` sets no timeout, and its result is independent of
the process duration. -/
theorem agentRunnerEnforcesCeiling (b : ProcBehavior) (d : Int) (h : b.duration > 300) :
    agentRunMultipassCommand (.runs b) =
      { success := false, output := "", error := agentTimeoutError } ∧
    agentTimeoutError ≠ toolMissingError ∧
    appRunMultipassCommand (.runs b) =
      appRunMultipassCommand (.runs { b with duration := d }) := by
  refine ⟨?_, by decide, ?_⟩
  · simp [agentRunMultipassCommand, h]
  · simp [appRunMultipassCommand]

/-- Witness for `agentRunnerEnforcesCeiling` at a 301-second successful
process. -/
theorem agentRunnerEnforcesCeilingWitness :
    agentRunMultipassCommand
        (.runs { duration := 301, exitCode := 0, stdout := "x", stderr := "" }) =
      { success := false, output := "", error := agentTimeoutError } ∧
    agentTimeoutError ≠ toolMissingError ∧
    appRunMultipassCommand
        (.runs { duration := 301, exitCode := 0, stdout := "x", stderr := "" }) =
      appRunMultipassCommand
        (.runs { duration := 5, exitCode := 0, stdout := "x", stderr := "" }) :=
  agentRunnerEnforcesCeiling
    { duration := 301, exitCode := 0, stdout := "x", stderr := "" } 5 (by decide)

/-- Claim C5: re-registering an existing agent id is an idempotent upsert
on identity: a record is still stored under that id, its `agent_id` is
preserved, hostname/url/tags are overwritten with the request's values
(the url right-stripped of slashes, as the source stores it), status is
reset to "online", `last_seen` becomes the registration time, and
`vm_count` restarts at 0. -/
theorem registerAgentUpsert (now : Int) (req : AgentRegisterRequest) (s : AgentRegistry)
    (old : AgentInfo) (_hold : getAgent s req.agent_id = some old) :
    ∃ a', getAgent (registerAgent now req s).2 req.agent_id = some a' ∧
      a'.agent_id = req.agent_id ∧
      a'.hostname = req.hostname ∧
      a'.api_url = rstripSlash req.api_url ∧
      a'.tags = req.tags.getD [] ∧
      a'.status = "online" ∧
      a'.last_seen = some now ∧
      a'.vm_count = 0 := by
  refine ⟨{ agent_id := req.agent_id, hostname := req.hostname,
            api_url := rstripSlash req.api_url, status := "online",
            last_seen := some now, tags := req.tags.getD [], vm_count := 0 },
    ?_, rfl, rfl, rfl, rfl, rfl, rfl, rfl⟩
  simp [registerAgent, getAgent, alGet_alSet_self]

/-- Witness for `registerAgentUpsert`: re-registering `a1` at time 50 with
new hostname, url and tags. -/
theorem registerAgentUpsertWitness :
    ∃ a', getAgent (registerAgent 50 reqA1v2 regA1).2 reqA1v2.agent_id = some a' ∧
      a'.agent_id = reqA1v2.agent_id ∧
      a'.hostname = reqA1v2.hostname ∧
      a'.api_url = rstripSlash reqA1v2.api_url ∧
      a'.tags = reqA1v2.tags.getD [] ∧
      a'.status = "online" ∧
      a'.last_seen = some 50 ∧
      a'.vm_count = 0 :=
  registerAgentUpsert 50 reqA1v2 regA1 a1Info (by decide)

/-- Claim C1 counterexample: agent `a1` is registered and its record's
status is "offline", yet `vm_action` reaches its outbound POST instead of
failing immediately with an offline error and zero network calls — the
liveness gate exists only in `execute_command`, not in the other
communicator operations. -/
theorem vmActionOfflineAgentStillCallsNetwork :
    (getAgent regA1Offline "a1").map AgentInfo.status = some "offline" ∧
    vmActionPhase regA1Offline "a1" "start" =
      .net { verb := "POST", url := "http://h:8001/api/vm/start" } := by
  decide

/-- Claim C1 (amended): for an unregistered id all five communicator
operations fail immediately with the agent-not-found message and zero
network calls; `execute_command` additionally fails immediately with the
offline message when the registered record's status is not "online"; but
`get_vm_list`, `get_vm_info`, `create_vm` and `vm_action` consult only
registration, and for any registered agent — whatever its status —
proceed to issue their outbound network request. -/
theorem communicatorLivenessGate (s : AgentRegistry) (agent_id vm_name action : String) :
    (getAgent s agent_id = none →
      executeCommandPhase s agent_id =
        .fail { success := false, stdout := none, stderr := none, return_code := -1,
                error := some ("Agent not found: " ++ agent_id) } ∧
      getVmListPhase s agent_id = .fail ("Agent not found: " ++ agent_id) ∧
      getVmInfoPhase s agent_id vm_name = .fail ("Agent not found: " ++ agent_id) ∧
      createVmPhase s agent_id = .fail ("Agent not found: " ++ agent_id) ∧
      vmActionPhase s agent_id action = .fail ("Agent not found: " ++ agent_id)) ∧
    (∀ a, getAgent s agent_id = some a → a.status ≠ "online" →
      executeCommandPhase s agent_id =
        .fail { success := false, stdout := none, stderr := none, return_code := -1,
                error := some ("Agent is offline: " ++ agent_id) }) ∧
    (∀ a, getAgent s agent_id = some a →
      getVmListPhase s agent_id =
        .net { verb := "GET", url := a.api_url ++ "/api/vm/list" } ∧
      getVmInfoPhase s agent_id vm_name =
        .net { verb := "GET", url := a.api_url ++ "/api/vm/info/" ++ vm_name } ∧
      createVmPhase s agent_id =
        .net { verb := "POST", url := a.api_url ++ "/api/vm/create" } ∧
      vmActionPhase s agent_id action =
        .net { verb := "POST", url := a.api_url ++ "/api/vm/" ++ action }) := by
  refine ⟨?_, ?_, ?_⟩
  · intro h
    simp [executeCommandPhase, getVmListPhase, getVmInfoPhase, createVmPhase,
      vmActionPhase, h]
  · intro a ha hs
    simp [executeCommandPhase, ha, hs]
  · intro a ha
    simp [getVmListPhase, getVmInfoPhase, createVmPhase, vmActionPhase, ha]

/-- Witness for `communicatorLivenessGate` at the concrete registry whose
agent `a1` is offline. -/
theorem communicatorLivenessGateWitness :
    executeCommandPhase regA1Offline "a1" =
      .fail { success := false, stdout := none, stderr := none, return_code := -1,
              error := some ("Agent is offline: " ++ "a1") } ∧
    vmActionPhase regA1Offline "a1" "start" =
      .net { verb := "POST", url := a1OfflineInfo.api_url ++ "/api/vm/" ++ "start" } :=
  ⟨(communicatorLivenessGate regA1Offline "a1" "vm" "start").2.1
      a1OfflineInfo (by decide) (by decide),
   ((communicatorLivenessGate regA1Offline "a1" "vm" "start").2.2
      a1OfflineInfo (by decide)).2.2.2⟩

/-- Claim C2 counterexample: `a1`'s heartbeat deposited status "error"
with timestamp 10; the sweep at time 20 — well within the 60-second
threshold — leaves the status at "error", not "online": the sweep only
flips statuses that are exactly "offline" back to online. -/
theorem sweepWithinThresholdNotOnline :
    (getAgent (checkAgentStatus 20 regA1Error) "a1").map AgentInfo.status = some "error" ∧
    (20 : Int) - 10 ≤ offlineThreshold := by
  decide

/-- Claim C2 (amended): for every registered agent with a recorded
`last_seen`, immediately after the sweep at time `now` the status is
"offline" iff `now - last_seen` exceeds the 60-second threshold; and
whenever the pre-sweep status was "online" or "offline" (the only statuses
the registry's own transitions produce), the post-sweep status is "online"
iff within the threshold — so online→offline happens exactly when the
threshold is exceeded and offline→online exactly when a heartbeat has
advanced `last_seen` back within it.  A status outside {online, offline}
deposited by a heartbeat is NOT normalized to "online" within the
threshold. -/
theorem sweepStatusThreshold (s : AgentRegistry) (now : Int) (agent_id : String)
    (a : AgentInfo) (ls : Int) (ha : getAgent s agent_id = some a)
    (hl : a.last_seen = some ls) :
    getAgent (checkAgentStatus now s) agent_id = some (sweepAgent now a) ∧
    ((sweepAgent now a).status = "offline" ↔ now - ls > offlineThreshold) ∧
    (a.status = "online" ∨ a.status = "offline" →
      ((sweepAgent now a).status = "online" ↔ now - ls ≤ offlineThreshold)) := by
  have ha' : alGet s.agents agent_id = some a := ha
  refine ⟨?_, ?_, ?_⟩
  · simp [checkAgentStatus, getAgent, alGet_map_snd, ha']
  · simp only [sweepAgent, hl]
    by_cases hgt : now - ls > offlineThreshold
    · by_cases hoff : a.status = "offline" <;> simp [hgt, hoff]
    · by_cases hoff : a.status = "offline" <;> simp [hgt, hoff]
  · intro hpre
    simp only [sweepAgent, hl]
    by_cases hgt : now - ls > offlineThreshold
    · by_cases hoff : a.status = "offline" <;> simp [hgt, hoff] <;> omega
    · rcases hpre with hon | hoff
      · have : ¬ a.status = "offline" := by simp [hon]
        simp [hgt, this, hon]
        omega
      · simp [hgt, hoff]
        omega

/-- Witness for `sweepStatusThreshold`: sweeping the registry holding the
online agent `a1` (last seen at 0) at time 100. -/
theorem sweepStatusThresholdWitness :
    getAgent (checkAgentStatus 100 regA1) "a1" = some (sweepAgent 100 a1Info) ∧
    ((sweepAgent 100 a1Info).status = "offline" ↔ (100 : Int) - 0 > offlineThreshold) ∧
    (a1Info.status = "online" ∨ a1Info.status = "offline" →
      ((sweepAgent 100 a1Info).status = "online" ↔ (100 : Int) - 0 ≤ offlineThreshold)) :=
  sweepStatusThreshold regA1 100 "a1" a1Info 0 (by decide) (by decide)

/-- Claim C7: for every operation in the capability set, the factory
resolves a null agent identifier to the Local executor, whose backend
calls all drive the Command Runner, and any non-null identifier to the
Remote executor, whose backend calls all drive the Communicator targeting
exactly that identifier — never the reverse — and each operation issues at
least one backend call. -/
theorem executorDispatchCorrect (env : List String → Spawn) (op : CapOp)
    (agent_id : String) :
    ((executorCalls env (getExecutor none) op).all isRunnerCall = true ∧
      executorCalls env (getExecutor none) op ≠ []) ∧
    ((executorCalls env (getExecutor (some agent_id)) op).all (targetsAgent agent_id) = true ∧
      executorCalls env (getExecutor (some agent_id)) op ≠ []) := by
  cases op <;>
    simp [executorCalls, getExecutor, localOpCalls, remoteOpCalls, isRunnerCall,
      targetsAgent, localDeleteVm]
  split <;> simp [isRunnerCall]

/-- Claim C8: a heartbeat from an unregistered agent id leaves the
registry completely unchanged (no auto-registration, nothing else
touched); for a registered id it rewrites exactly that agent's
`last_seen`, `status` and `vm_count` from the heartbeat, leaves every
other agent's record untouched, and never touches the API-key store. -/
theorem updateHeartbeatFrame (hb : AgentHeartbeat) (s : AgentRegistry) :
    (getAgent s hb.agent_id = none → updateHeartbeat hb s = s) ∧
    (∀ a, getAgent s hb.agent_id = some a →
      (updateHeartbeat hb s).api_keys = s.api_keys ∧
      getAgent (updateHeartbeat hb s) hb.agent_id =
        some ({ a with last_seen := some hb.timestamp, status := hb.status,
                       vm_count := hb.vm_count }) ∧
      (∀ id', id' ≠ hb.agent_id →
        getAgent (updateHeartbeat hb s) id' = getAgent s id')) := by
  constructor
  · intro h
    have h' : alGet s.agents hb.agent_id = none := h
    simp [updateHeartbeat, h']
  · intro a ha
    have ha' : alGet s.agents hb.agent_id = some a := ha
    refine ⟨?_, ?_, ?_⟩
    · simp [updateHeartbeat, ha']
    · simp [updateHeartbeat, getAgent, ha', alGet_alSet_self]
    · intro id' hne
      simp [updateHeartbeat, getAgent, ha', alGet_alSet_ne _ _ _ _ hne]

/-- Witness for `updateHeartbeatFrame`: a heartbeat from the unregistered
id "ghost" is a no-op on `regA1`, and `a1`'s own heartbeat leaves the
API-key store untouched. -/
theorem updateHeartbeatFrameWitness :
    updateHeartbeat hbUnknown regA1 = regA1 ∧
    (updateHeartbeat hbError regA1).api_keys = regA1.api_keys :=
  ⟨(updateHeartbeatFrame hbUnknown regA1).1 (by decide),
   ((updateHeartbeatFrame hbError regA1).2 a1Info (by decide)).1⟩

/-- Claim C9: on the agent server, with no configured API key every
request passes the check regardless of any `X-API-Key` header; with a
configured key a request passes exactly when it carries a header equal to
the key, and otherwise is rejected with a 403 authentication error. -/
theorem verifyApiKeyCorrect (k : String) (h : Option String) :
    verifyApiKey none h = .allowed ∧
    (h = some k → verifyApiKey (some k) h = .allowed) ∧
    (h ≠ some k → verifyApiKey (some k) h = .rejected 403 "Invalid or missing API key") := by
  refine ⟨rfl, ?_, ?_⟩
  · intro hh
    subst hh
    simp [verifyApiKey]
  · intro hh
    cases h with
    | none => rfl
    | some x =>
        have hx : x ≠ k := fun he => hh (by rw [he])
        simp [verifyApiKey, hx]

/-- Witness for `verifyApiKeyCorrect`: matching and non-matching headers
against a configured key, and any header with no configured key. -/
theorem verifyApiKeyCorrectWitness :
    verifyApiKey none (some "whatever") = .allowed ∧
    verifyApiKey (some "s3cr3t") (some "s3cr3t") = .allowed ∧
    verifyApiKey (some "s3cr3t") (some "wrong") =
      .rejected 403 "Invalid or missing API key" :=
  ⟨(verifyApiKeyCorrect "s3cr3t" (some "whatever")).1,
   (verifyApiKeyCorrect "s3cr3t" (some "s3cr3t")).2.1 rfl,
   (verifyApiKeyCorrect "s3cr3t" (some "wrong")).2.2 (by decide)⟩

/-- Claim C10: re-registering an agent id without a (truthy) API key
leaves the stored key for that id in place, so `get_agent_api_key` still
answers the old key and `_get_headers` still attaches the stale secret; a
supplied key replaces the stored one; registration never touches keys of
other ids; heartbeats, sweeps and vm-count updates never touch the key
store; and unregistering a registered id removes its key. -/
theorem apiKeyRetention (now cnt : Int) (req : AgentRegisterRequest) (s : AgentRegistry)
    (hb : AgentHeartbeat) (agent_id id' k : String) :
    (strTruthy req.api_key = false →
      (registerAgent now req s).2.api_keys = s.api_keys ∧
      getHeaders (registerAgent now req s).2 req.agent_id = getHeaders s req.agent_id) ∧
    (req.api_key = some k → k ≠ "" →
      getAgentApiKey (registerAgent now req s).2 req.agent_id = some k) ∧
    (id' ≠ req.agent_id →
      getAgentApiKey (registerAgent now req s).2 id' = getAgentApiKey s id') ∧
    ((updateHeartbeat hb s).api_keys = s.api_keys) ∧
    ((checkAgentStatus now s).api_keys = s.api_keys) ∧
    ((updateVmCount agent_id cnt s).api_keys = s.api_keys) ∧
    (∀ a, getAgent s agent_id = some a →
      getAgentApiKey (unregisterAgent agent_id s).2 agent_id = none) := by
  refine ⟨?_, ?_, ?_, ?_, ?_, ?_, ?_⟩
  · intro h
    constructor
    · simp [registerAgent, h]
    · simp [getHeaders, getAgentApiKey, registerAgent, h]
  · intro hk hne
    simp [getAgentApiKey, registerAgent, hk, strTruthy, hne, alGet_alSet_self]
  · intro hne
    by_cases ht : strTruthy req.api_key = true
    · simp [getAgentApiKey, registerAgent, ht, alGet_alSet_ne _ _ _ _ hne]
    · simp at ht
      simp [getAgentApiKey, registerAgent, ht]
  · cases ha : alGet s.agents hb.agent_id <;> simp [updateHeartbeat, ha]
  · rfl
  · cases ha : alGet s.agents agent_id <;> simp [updateVmCount, ha]
  · intro a ha
    have ha' : alGet s.agents agent_id = some a := ha
    simp [getAgentApiKey, unregisterAgent, ha', alGet_alDel_self]

/-- Witness for `apiKeyRetention`: re-registering `a1` without a key keeps
the key store, an explicit key overwrites it, and unregistering removes
it. -/
theorem apiKeyRetentionWitness :
    (registerAgent 50 reqA1v2 regA1).2.api_keys = regA1.api_keys ∧
    getHeaders (registerAgent 50 reqA1v2 regA1).2 reqA1v2.agent_id =
      getHeaders regA1 reqA1v2.agent_id ∧
    getAgentApiKey (registerAgent 0 reqA1 emptyRegistry).2 reqA1.agent_id =
      some "secret1" ∧
    getAgentApiKey (unregisterAgent "a1" regA1).2 "a1" = none :=
  ⟨((apiKeyRetention 50 0 reqA1v2 regA1 hbError "a1" "b" "x").1 (by decide)).1,
   ((apiKeyRetention 50 0 reqA1v2 regA1 hbError "a1" "b" "x").1 (by decide)).2,
   (apiKeyRetention 0 0 reqA1 emptyRegistry hbError "a1" "b" "secret1").2.1
     rfl (by decide),
   (apiKeyRetention 0 0 reqA1 regA1 hbError "a1" "b" "x").2.2.2.2.2.2
     a1Info (by decide)⟩

/-- Claim C6 counterexample: the frame
`\x7b"type": "resize", "cols": 99999, "rows": 24\x7d` parses as exactly
the JSON control object of the claim, with numeric cols and rows, so
under the claim it must cause a terminal-size ioctl and never be written
as keystrokes.  In the code, `int()` converts both values but
`struct.pack("HHHH", 24, 99999, 0, 0)` raises `struct.error` (99999
exceeds the unsigned-short range); the exception is swallowed by the
`except` and the frame IS written byte-for-byte to the terminal as
keystroke input.  The string-coercion parameter is never consulted here
(both values are JSON numbers) and is instantiated trivially. -/
theorem resizeOutOfRangeForwardedAsKeystrokes :
    processFrame (fun _ => none) (some (.obj hugeColsFields)) hugeColsMsg =
      .write hugeColsMsg ∧
    isNumField hugeColsFields "cols" = true ∧
    isNumField hugeColsFields "rows" = true := by
  decide

/-- Claim C6 (amended): a client frame triggers the terminal-size ioctl —
and is never written as keystrokes — exactly when it parses to a JSON
object whose "type" field is the string "resize", whose "cols" and "rows"
values are both Python-`int()`-convertible (the geometry being taken
through that coercion), and whose converted rows and cols both lie in
`struct.pack`'s unsigned-short range 0..65535; every other frame — JSON
parse failures and out-of-range geometries included — is written
byte-for-byte to the terminal's primary side as input.  The statement is
proven for an arbitrary `int()`-on-string coercion `strToInt`, so it
holds in particular of Python's actual numeral grammar. -/
theorem processFrameCharacterization (strToInt : String → Option Int)
    (parsed : Option PyJson) (msg : String)
    (fields : List (String × PyJson)) (j : PyJson) (c r : Int) :
    (parsed = none → processFrame strToInt parsed msg = .write msg) ∧
    (parsed = some j → (∀ fs, j ≠ .obj fs) →
      processFrame strToInt parsed msg = .write msg) ∧
    (parsed = some (.obj fields) → isStrEq (alGet fields "type") "resize" = false →
      processFrame strToInt parsed msg = .write msg) ∧
    (parsed = some (.obj fields) →
      (alGet fields "cols").bind (pyIntWith strToInt) = none →
      processFrame strToInt parsed msg = .write msg) ∧
    (parsed = some (.obj fields) →
      (alGet fields "rows").bind (pyIntWith strToInt) = none →
      processFrame strToInt parsed msg = .write msg) ∧
    (parsed = some (.obj fields) → isStrEq (alGet fields "type") "resize" = true →
      (alGet fields "cols").bind (pyIntWith strToInt) = some c →
      (alGet fields "rows").bind (pyIntWith strToInt) = some r →
      (inUShortRange r && inUShortRange c) = false →
      processFrame strToInt parsed msg = .write msg) ∧
    (parsed = some (.obj fields) → isStrEq (alGet fields "type") "resize" = true →
      (alGet fields "cols").bind (pyIntWith strToInt) = some c →
      (alGet fields "rows").bind (pyIntWith strToInt) = some r →
      inUShortRange r = true → inUShortRange c = true →
      processFrame strToInt parsed msg = .resize r c) := by
  refine ⟨?_, ?_, ?_, ?_, ?_, ?_, ?_⟩
  · intro hp
    subst hp
    rfl
  · intro hp hno
    subst hp
    cases j with
    | obj fs => exact absurd rfl (hno fs)
    | null => rfl
    | bool b => rfl
    | num n => rfl
    | str s => rfl
    | arr xs => rfl
  · intro hp ht
    subst hp
    simp [processFrame, ht]
  · intro hp hc
    subst hp
    simp only [processFrame]
    by_cases ht : isStrEq (alGet fields "type") "resize" = true
    · simp only [ht, if_true]
      cases hcv : alGet fields "cols" with
      | none => simp [hcv]
      | some cv =>
          have hpc : pyIntWith strToInt cv = none := by
            simpa [hcv] using hc
          cases hrv : alGet fields "rows" with
          | none => simp [hcv, hrv]
          | some rv => simp [hcv, hrv, hpc]
    · simp at ht
      simp [ht]
  · intro hp hr
    subst hp
    simp only [processFrame]
    by_cases ht : isStrEq (alGet fields "type") "resize" = true
    · simp only [ht, if_true]
      cases hcv : alGet fields "cols" with
      | none => simp [hcv]
      | some cv =>
          cases hrv : alGet fields "rows" with
          | none => simp [hcv, hrv]
          | some rv =>
              have hpr : pyIntWith strToInt rv = none := by
                simpa [hrv] using hr
              cases hpc : pyIntWith strToInt cv <;> simp [hcv, hrv, hpc, hpr]
    · simp at ht
      simp [ht]
  · intro hp ht hc hr hrange
    subst hp
    cases hcv : alGet fields "cols" with
    | none => simp [hcv] at hc
    | some cv =>
        cases hrv : alGet fields "rows" with
        | none => simp [hrv] at hr
        | some rv =>
            have hpc : pyIntWith strToInt cv = some c := by simpa [hcv] using hc
            have hpr : pyIntWith strToInt rv = some r := by simpa [hrv] using hr
            simp [processFrame, ht, hcv, hrv, hpc, hpr, hrange]
  · intro hp ht hc hr hrr hrc
    subst hp
    cases hcv : alGet fields "cols" with
    | none => simp [hcv] at hc
    | some cv =>
        cases hrv : alGet fields "rows" with
        | none => simp [hrv] at hr
        | some rv =>
            have hpc : pyIntWith strToInt cv = some c := by simpa [hcv] using hc
            have hpr : pyIntWith strToInt rv = some r := by simpa [hrv] using hr
            simp [processFrame, ht, hcv, hrv, hpc, hpr, hrr, hrc]

/-- Witness for `processFrameCharacterization`: the canonical numeric
resize frame (cols 80, rows 24, both in range) triggers the ioctl and is
not forwarded; an unparseable frame is forwarded verbatim.  Both cases
are independent of the string coercion, instantiated trivially. -/
theorem processFrameCharacterizationWitness :
    processFrame (fun _ => none) (some (.obj numColsFields)) "ignored" =
      .resize 24 80 ∧
    processFrame (fun _ => none) none "hello\n" = .write "hello\n" :=
  ⟨(processFrameCharacterization (fun _ => none) (some (.obj numColsFields))
      "ignored" numColsFields .null 80 24).2.2.2.2.2.2
      rfl (by decide) (by decide) (by decide) (by decide) (by decide),
   (processFrameCharacterization (fun _ => none) none "hello\n" [] .null 0 0).1 rfl⟩

end Batwa
